import Mathlib

/-!
Shallow embedding of the aws-stress-test-app repository (server.js and
stress-worker.js): the CPU utilization sampler, the load-generator state
held by the HTTP server process, and the busy-loop worker. Definitions
are translated from the JavaScript source; spec-side definitions used for
refinement comparisons are marked as such in their doc comments.
-/

/-- One entry of `os.cpus()[i].times`: the per-core cumulative counters
`user`, `nice`, `sys`, `idle`, `irq` read by `calcCpuUsagePercent`
(src lines 64-67). JavaScript numbers are modelled as rationals. -/
structure CpuTimes where
  user : ℚ
  nice : ℚ
  sys : ℚ
  idle : ℚ
  irq : ℚ
deriving DecidableEq

/-- The per-core total `p.times.user + p.times.nice + p.times.sys +
p.times.idle + p.times.irq` computed at src lines 64-67. -/
def coreTotal (t : CpuTimes) : ℚ :=
  t.user + t.nice + t.sys + t.idle + t.irq

/-- Body of the arrow function inside `calcCpuUsagePercent` (src lines
62-75) for one core: `totalDiff`, `idleDiff`, the `totalDiff <= 0` guard
returning 0, and `Math.max(0, Math.min(100, (1 - idleDiff/totalDiff)*100))`. -/
def coreUsage (p c : CpuTimes) : ℚ :=
  let totalDiff := coreTotal c - coreTotal p
  let idleDiff := c.idle - p.idle
  if totalDiff ≤ 0 then 0
  else max 0 (min 100 ((1 - idleDiff / totalDiff) * 100))

/-- `calcCpuUsagePercent(prev, curr)` (src lines 60-76): maps over `curr`
reading `prev[i]` at the same index. The JavaScript indexing is total only
when `prev` covers every index of `curr` (both always come from
`os.cpus()` on the same host); the embedding pairs the lists positionally. -/
def calcCpuUsagePercent (prev curr : List CpuTimes) : List ℚ :=
  (curr.zip prev).map fun cp => coreUsage cp.2 cp.1

/-- Spec-side definition, modelled from the spec's words only (§4.2): "For
each core index i, compute `totalDelta = totalCurr[i] - totalPrev[i]` and
`idleDelta = idleCurr[i] - idlePrev[i]`, where `total` is the sum of
user+nice+system+idle+interrupt counters. Usage percent =
`(1 - idleDelta/totalDelta) * 100`, clamped to `[0, 100]`. If
`totalDelta <= 0` ... usage for that core is reported as 0". Used for the
refinement comparison with `calcCpuUsagePercent`. -/
def specUsagePercent (p c : CpuTimes) : ℚ :=
  let totalDelta := (c.user + c.nice + c.sys + c.idle + c.irq)
    - (p.user + p.nice + p.sys + p.idle + p.irq)
  let idleDelta := c.idle - p.idle
  if totalDelta ≤ 0 then 0
  else min 100 (max 0 ((1 - idleDelta / totalDelta) * 100))

/-- The `/metrics` handler's sampler core (src lines 270-281): reads a
fresh snapshot `curr = os.cpus()`, computes
`calcCpuUsagePercent(lastCpuSnapshot, curr)`, and then executes
`lastCpuSnapshot = curr`; the second component is the stored snapshot
after the assignment. -/
def getMetrics (lastCpuSnapshot curr : List CpuTimes) : List ℚ × List CpuTimes :=
  (calcCpuUsagePercent lastCpuSnapshot curr, curr)

/-- A sequence of `/metrics` calls threading the module-level mutable
`lastCpuSnapshot` (seeded at src line 58 with `os.cpus()` at startup,
modelled by the `last` argument of the first call): returns the usage list
produced by each call in order. -/
def runMetrics : List CpuTimes → List (List CpuTimes) → List (List ℚ)
  | _, [] => []
  | last, curr :: rest =>
      (getMetrics last curr).1 :: runMetrics (getMetrics last curr).2 rest

/-- The server process's module-level mutable state (src lines 24-25):
`stressWorkers` holds the active `Worker` objects (modelled as distinct
numeric identities allocated in spawn order from `nextId`) and
`isStressing` the process-wide flag. -/
structure ServerState where
  stressWorkers : List ℕ
  isStressing : Bool
  nextId : ℕ
deriving DecidableEq

/-- State at module load: `let stressWorkers = []; let isStressing = false;`. -/
def initState : ServerState := ⟨[], false, 0⟩

/-- `stopStress()` (src lines 117-126): calls `terminate()` on every
worker in `stressWorkers`, then reassigns `stressWorkers = []` and
`isStressing = false`. Returns the new state together with the list of
workers the call terminated. -/
def stopStress (s : ServerState) : ServerState × List ℕ :=
  ({ stressWorkers := [], isStressing := false, nextId := s.nextId },
    s.stressWorkers)

/-- `stressCPU(durationMs = 60000)` (src lines 79-114), statement by
statement: `isStressing = true;`, then the safety `stopStress();`
(comment at src line 85: "Safety: if somehow called twice"), then the
`for` loop spawning `numCPUs = os.cpus().length` fresh workers, pushing
each onto `stressWorkers` and posting `{ durationMs }` to it. The flag is
not assigned again after the reset, so the final flag value is the one
`stopStress()` left. Returns the new state, the workers terminated by the
internal `stopStress()` call, and the posted `(worker, durationMs)`
messages. -/
def stressCPU (numCPUs : ℕ) (durationMs : ℤ) (s : ServerState) :
    ServerState × List ℕ × List (ℕ × ℤ) :=
  let s1 : ServerState := { s with isStressing := true }
  let stopped := stopStress s1
  let s2 := stopped.1
  let fresh := (List.range numCPUs).map fun i => s2.nextId + i
  let s3 : ServerState :=
    { stressWorkers := s2.stressWorkers ++ fresh
      isStressing := s2.isStressing
      nextId := s2.nextId + numCPUs }
  (s3, stopped.2, fresh.map fun w => (w, durationMs))

/-- The worker `exit` handler (src lines 98-105): removes the exited
worker by `stressWorkers.filter((w) => w !== worker)` and, when the set
becomes empty, sets `isStressing = false`. -/
def onWorkerExit (w : ℕ) (s : ServerState) : ServerState :=
  let ws := s.stressWorkers.filter fun x => x != w
  { stressWorkers := ws
    isStressing := if ws.length = 0 then false else s.isStressing
    nextId := s.nextId }

/-- JSON response of the stress-control endpoints: `success`, `message`,
and (on a successful `/stress` call only) the echoed `duration`. -/
structure StressResponse where
  success : Bool
  message : String
  duration : Option ℤ
deriving DecidableEq

/-- Result of one HTTP handler invocation: the server state after the
call, the workers terminated during it, the `{ durationMs }` messages
posted to newly spawned workers, and the JSON response sent. -/
structure HandlerResult where
  state : ServerState
  terminated : List ℕ
  sent : List (ℕ × ℤ)
  response : StressResponse
deriving DecidableEq

/-- `Number(req.body?.duration || 60000)` (src line 255): a missing body
value or the falsy number 0 yields the default 60000; any other number —
negative values included — passes through unchecked. -/
def effectiveDuration : Option ℤ → ℤ
  | none => 60000
  | some v => if v = 0 then 60000 else v

/-- The `app.post("/stress")` handler (src lines 254-263): computes the
duration, returns `{ success: false, message: "Stress test already
running" }` when `isStressing` is set, and otherwise calls
`stressCPU(duration)` and responds `{ success: true, message: "Stress
test started", duration }`. -/
def postStress (numCPUs : ℕ) (body : Option ℤ) (s : ServerState) :
    HandlerResult :=
  let duration := effectiveDuration body
  if s.isStressing then
    { state := s, terminated := [], sent := [],
      response := { success := false,
                    message := "Stress test already running",
                    duration := none } }
  else
    let r := stressCPU numCPUs duration s
    { state := r.1, terminated := r.2.1, sent := r.2.2,
      response := { success := true, message := "Stress test started",
                    duration := some duration } }

/-- The `app.post("/stop-stress")` handler (src lines 265-268): calls
`stopStress()` and responds success unconditionally. -/
def postStopStress (s : ServerState) : HandlerResult :=
  let r := stopStress s
  { state := r.1, terminated := r.2, sent := [],
    response := { success := true, message := "Stress test stopped",
                  duration := none } }

/-- Events the server's single-threaded event loop dispatches on: the two
control endpoints and a worker's `exit` event (fired after the done
message triggers `terminate()`, or after a forced `terminate()`). -/
inductive ServerEvent where
  | stress (body : Option ℤ)
  | stopReq
  | workerExit (w : ℕ)
deriving DecidableEq

/-- One atomic event-loop dispatch on a host with `numCPUs` logical
cores. -/
def serverStep (numCPUs : ℕ) : ServerEvent → ServerState → ServerState
  | ServerEvent.stress body, s => (postStress numCPUs body s).state
  | ServerEvent.stopReq, s => (postStopStress s).state
  | ServerEvent.workerExit w, s => onWorkerExit w s

/-- The server state reached from module load after a sequence of
events. -/
def runServer (numCPUs : ℕ) (evs : List ServerEvent) : ServerState :=
  evs.foldl (fun s e => serverStep numCPUs e s) initState

/-- `Number(durationMs || 60000)` inside the worker's message handler
(stress-worker.js line 4): the falsy values (missing field, 0) fall back
to 60000; any other number, negative included, passes through. -/
def workerEffectiveDuration : Option ℤ → ℤ
  | none => 60000
  | some v => if v = 0 then 60000 else v

/-- Iteration count of `while (Date.now() < end) { Math.sqrt(Math.random()); }`
(stress-worker.js lines 6-8): the first index k whose clock reading
satisfies `end ≤ clock k`; every earlier reading kept the loop spinning,
one floating-point evaluation per iteration. Requires a proof that the
deadline is eventually reached. -/
def spinIterations (endTime : ℤ) (clock : ℕ → ℤ)
    (h : ∃ k, endTime ≤ clock k) : ℕ :=
  Nat.find h

/-- Observable outcome of one worker message handling: how many busy-loop
iterations ran and whether `{ done: true }` was posted afterwards. -/
structure WorkerRun where
  iterations : ℕ
  postedDone : Bool
deriving DecidableEq

/-- The worker's `parentPort.on("message")` handler (stress-worker.js
lines 3-11): `end = Date.now() + Number(durationMs || 60000)` with
`clock 0` the `Date.now()` read at entry and `clock k` the reading of the
k-th loop test; the loop spins until the deadline and then
`parentPort.postMessage({ done: true })` executes. -/
def workerOnMessage (durationMs : Option ℤ) (clock : ℕ → ℤ)
    (h : ∃ k, clock 0 + workerEffectiveDuration durationMs ≤ clock k) :
    WorkerRun :=
  { iterations :=
      spinIterations (clock 0 + workerEffectiveDuration durationMs) clock h
    postedDone := true }

/-- A concrete clock advancing one millisecond per loop test, used to
instantiate worker theorems. -/
def natClock : ℕ → ℤ := fun k => (k : ℤ)

lemma coreUsage_eq_specUsagePercent (p c : CpuTimes) :
    coreUsage p c = specUsagePercent p c := by
  show (if coreTotal c - coreTotal p ≤ 0 then (0 : ℚ)
      else max 0 (min 100 ((1 - (c.idle - p.idle) / (coreTotal c - coreTotal p)) * 100)))
    = _
  rw [specUsagePercent, coreTotal, coreTotal]
  split
  · rfl
  · rw [max_min_distrib_left]
    norm_num

/-- C5: For every pair of snapshots of equal length (as produced by
`os.cpus()` on one host), `calcCpuUsagePercent` computes, at every core
index, exactly the spec's formula: totalDelta as difference of the
user+nice+system+idle+interrupt sums, idleDelta as difference of idle
counters, usage `(1 - idleDelta/totalDelta) * 100` clamped to `[0,100]`,
and 0 whenever `totalDelta ≤ 0`. -/
theorem c5_usage_matches_spec_formula (prev curr : List CpuTimes)
    (h : prev.length = curr.length) :
    calcCpuUsagePercent prev curr = List.zipWith specUsagePercent prev curr := by
  induction prev generalizing curr with
  | nil => cases curr <;> simp [calcCpuUsagePercent]
  | cons p ps ih =>
    cases curr with
    | nil => simp [calcCpuUsagePercent]
    | cons c cs =>
      have hlen : ps.length = cs.length := by
        simpa using h
      simp only [calcCpuUsagePercent, List.zip_cons_cons, List.map_cons,
        List.zipWith_cons_cons]
      exact congrArg₂ List.cons (coreUsage_eq_specUsagePercent p c) (ih cs hlen)

/-- Witness for `c5_usage_matches_spec_formula` at concrete snapshots. -/
theorem c5_usage_matches_spec_formula_witness :
    ([CpuTimes.mk 1 0 0 10 0].length = [CpuTimes.mk 5 0 1 14 0].length) ∧
    calcCpuUsagePercent [CpuTimes.mk 1 0 0 10 0] [CpuTimes.mk 5 0 1 14 0]
      = List.zipWith specUsagePercent [CpuTimes.mk 1 0 0 10 0]
          [CpuTimes.mk 5 0 1 14 0] :=
  ⟨rfl,
    c5_usage_matches_spec_formula [CpuTimes.mk 1 0 0 10 0]
      [CpuTimes.mk 5 0 1 14 0] rfl⟩

lemma coreUsage_nonneg_le (p c : CpuTimes) :
    0 ≤ coreUsage p c ∧ coreUsage p c ≤ 100 := by
  show (0 ≤ if coreTotal c - coreTotal p ≤ 0 then (0 : ℚ)
      else max 0 (min 100 ((1 - (c.idle - p.idle) / (coreTotal c - coreTotal p)) * 100))) ∧
    ((if coreTotal c - coreTotal p ≤ 0 then (0 : ℚ)
      else max 0 (min 100 ((1 - (c.idle - p.idle) / (coreTotal c - coreTotal p)) * 100)))
      ≤ 100)
  split
  · exact ⟨le_refl 0, by norm_num⟩
  · exact ⟨le_max_left _ _, max_le (by norm_num) (min_le_left _ _)⟩

/-- C6: for any two snapshots whatsoever, every per-core value returned by
`calcCpuUsagePercent` lies within `[0, 100]`; the `totalDiff ≤ 0` guard
returns 0 before any division is attempted. -/
theorem c6_usage_bounded (prev curr : List CpuTimes) (u : ℚ)
    (hu : u ∈ calcCpuUsagePercent prev curr) :
    0 ≤ u ∧ u ≤ 100 := by
  rcases List.mem_map.1 hu with ⟨cp, _, rfl⟩
  exact coreUsage_nonneg_le cp.2 cp.1

/-- Witness for `c6_usage_bounded` on a degenerate pair of snapshots with
`totalDelta = 0`. -/
theorem c6_usage_bounded_witness :
    ((0 : ℚ) ∈ calcCpuUsagePercent [CpuTimes.mk 1 1 1 1 1] [CpuTimes.mk 1 1 1 1 1]) ∧
    (0 ≤ (0 : ℚ) ∧ (0 : ℚ) ≤ 100) :=
  ⟨by simp [calcCpuUsagePercent, coreUsage, coreTotal],
    c6_usage_bounded [CpuTimes.mk 1 1 1 1 1] [CpuTimes.mk 1 1 1 1 1] 0
      (by simp [calcCpuUsagePercent, coreUsage, coreTotal])⟩

/-- C7: each `/metrics` call stores the current snapshot as the new
previous one (`lastCpuSnapshot = curr`), and over any sequence of calls
starting from the startup-seeded snapshot `init`, the i-th reported usage
is computed from the (i-1)-th observed snapshot (or `init` for the first
call) and the i-th observed snapshot — i.e. each sample is relative to
the immediately preceding call, with a baseline already present at call
one. -/
theorem c7_snapshot_replaced_each_sample :
    (∀ last curr : List CpuTimes, (getMetrics last curr).2 = curr) ∧
    (∀ (init : List CpuTimes) (obs : List (List CpuTimes)),
      runMetrics init obs = List.zipWith calcCpuUsagePercent (init :: obs) obs) := by
  constructor
  · intro last curr
    rfl
  · intro init obs
    induction obs generalizing init with
    | nil => rfl
    | cons c rest ih =>
      simp only [runMetrics, List.zipWith_cons_cons]
      exact congrArg₂ List.cons rfl (ih c)

/-- C1 (reported bug): the claimed invariant "`isStressing` is true iff
the handle set is non-empty" fails at a reachable state. After a single
`POST /stress` from module load on a 2-core host, the handle set holds
two workers while `isStressing` is false: the flag set at src line 83 is
reset by the internal `stopStress()` call at src line 86 and never set
again. -/
theorem c1_invariant_fails_after_start :
    (runServer 2 [ServerEvent.stress (some 60000)]).stressWorkers ≠ [] ∧
    (runServer 2 [ServerEvent.stress (some 60000)]).isStressing = false := by
  decide

/-- C2 (reported bug): Start(5000) from the idle initial state on a
4-core host does spawn exactly 4 (= coreCount) workers and responds
success, but leaves `isStressing = false` instead of the claimed true. -/
theorem c2_start_spawns_cores_but_flag_false :
    (postStress 4 (some 5000) initState).state.stressWorkers.length = 4 ∧
    (postStress 4 (some 5000) initState).response.success = true ∧
    (postStress 4 (some 5000) initState).state.isStressing = false := by
  decide

/-- C3 (counterexample): a Start request carrying the non-positive
duration -5, issued from the idle initial state on a 2-core host, is not
rejected by any validation: the handler responds success and spawns two
workers, posting -5 to each; the handle set changes. -/
theorem c3_counterexample_negative_duration_spawns :
    (postStress 2 (some (-5)) initState).response.success = true ∧
    (postStress 2 (some (-5)) initState).state.stressWorkers = [0, 1] ∧
    (postStress 2 (some (-5)) initState).sent = [(0, -5), (1, -5)] := by
  decide

/-- C3 (amended): the `/stress` handler performs no duration validation.
From any non-stressing state, every Start request — non-positive or
missing duration included — succeeds and spawns `numCPUs` fresh workers,
posting `effectiveDuration body` (the raw value, or the 60000 default for
a missing/zero value) to each. -/
theorem c3_no_validation_start_always_spawns (numCPUs : ℕ) (body : Option ℤ)
    (s : ServerState) (h : s.isStressing = false) :
    (postStress numCPUs body s).response.success = true ∧
    (postStress numCPUs body s).state.stressWorkers.length = numCPUs ∧
    (postStress numCPUs body s).sent =
      (List.range numCPUs).map fun i => (s.nextId + i, effectiveDuration body) := by
  simp [postStress, h, stressCPU, stopStress]

/-- Witness for `c3_no_validation_start_always_spawns` at the idle initial
state with the non-positive duration -5 on a 1-core host. -/
theorem c3_no_validation_start_always_spawns_witness :
    initState.isStressing = false ∧
    ((postStress 1 (some (-5)) initState).response.success = true ∧
      (postStress 1 (some (-5)) initState).state.stressWorkers.length = 1 ∧
      (postStress 1 (some (-5)) initState).sent =
        (List.range 1).map fun i => (initState.nextId + i, effectiveDuration (some (-5)))) :=
  ⟨rfl, c3_no_validation_start_always_spawns 1 (some (-5)) initState rfl⟩

/-- C4: whenever `isStressing` is true, the `/stress` handler returns the
"already running" rejection and does nothing else: the state — handle set
and every worker in it — is unchanged, no worker is terminated, and no
worker is spawned or messaged, so no second overlapping worker set
arises. -/
theorem c4_start_rejected_while_stressing (numCPUs : ℕ) (body : Option ℤ)
    (s : ServerState) (h : s.isStressing = true) :
    postStress numCPUs body s =
      { state := s, terminated := [], sent := [],
        response := { success := false,
                      message := "Stress test already running",
                      duration := none } } := by
  simp [postStress, h]

/-- Witness for `c4_start_rejected_while_stressing` at a concrete active
state holding one worker. -/
theorem c4_start_rejected_while_stressing_witness :
    (ServerState.mk [7] true 8).isStressing = true ∧
    postStress 4 (some 1000) (ServerState.mk [7] true 8) =
      { state := ServerState.mk [7] true 8, terminated := [], sent := [],
        response := { success := false,
                      message := "Stress test already running",
                      duration := none } } :=
  ⟨rfl, c4_start_rejected_while_stressing 4 (some 1000) (ServerState.mk [7] true 8) rfl⟩

/-- C8: `stopStress` (via `POST /stop-stress`) from any state whatsoever
terminates exactly the workers in the handle set, leaves the set empty
and `isStressing` false, spawns nothing, and responds success — in
particular, called while idle it is a no-op, not an error. -/
theorem c8_stop_clears_state (s : ServerState) :
    (postStopStress s).state.stressWorkers = [] ∧
    (postStopStress s).state.isStressing = false ∧
    (postStopStress s).terminated = s.stressWorkers ∧
    (postStopStress s).sent = [] ∧
    (postStopStress s).response.success = true :=
  ⟨rfl, rfl, rfl, rfl, rfl⟩

lemma clock_zero_add_le (clock : ℕ → ℤ)
    (hmono : ∀ k, clock k + 1 ≤ clock (k + 1)) :
    ∀ k : ℕ, clock 0 + k ≤ clock k := by
  intro k
  induction k with
  | zero => simp
  | succ n ih =>
    have h := hmono n
    push_cast
    push_cast at ih
    omega

/-- C9: a worker receiving `{ durationMs: d }` with d > 0 at time
`clock 0` busy-loops, one floating-point iteration per successive clock
reading with no sleep or yield in between, exactly until the first
reading that reaches the deadline `clock 0 + d`; it then posts
`{ done: true }`. Stated for every strictly increasing clock. -/
theorem c9_worker_spins_until_deadline_then_done (d : ℤ) (hd : 0 < d)
    (clock : ℕ → ℤ) (hmono : ∀ k, clock k + 1 ≤ clock (k + 1)) :
    ∃ h : ∃ k, clock 0 + workerEffectiveDuration (some d) ≤ clock k,
      (∀ j, j < (workerOnMessage (some d) clock h).iterations →
        clock j < clock 0 + d) ∧
      clock 0 + d ≤ clock ((workerOnMessage (some d) clock h).iterations) ∧
      (workerOnMessage (some d) clock h).postedDone = true := by
  have hdur : workerEffectiveDuration (some d) = d := by
    have hne : ¬ d = 0 := by omega
    simp [workerEffectiveDuration, hne]
  have h0 : ∃ k, clock 0 + workerEffectiveDuration (some d) ≤ clock k := by
    rw [hdur]
    refine ⟨d.toNat, ?_⟩
    have h1 := clock_zero_add_le clock hmono d.toNat
    have h2 : d ≤ (d.toNat : ℤ) := Int.self_le_toNat d
    omega
  refine ⟨h0, ?_, ?_, rfl⟩
  · intro j hj
    have hmin := Nat.find_min h0 (m := j) hj
    rw [hdur] at hmin
    omega
  · have hgoal : clock 0 + d = clock 0 + workerEffectiveDuration (some d) := by
      rw [hdur]
    rw [hgoal]
    exact Nat.find_spec h0

/-- Witness for `c9_worker_spins_until_deadline_then_done` with
duration 5 and the millisecond-per-test clock. -/
theorem c9_worker_spins_until_deadline_then_done_witness :
    (0 : ℤ) < 5 ∧
    (∀ k, natClock k + 1 ≤ natClock (k + 1)) ∧
    ∃ h : ∃ k, natClock 0 + workerEffectiveDuration (some 5) ≤ natClock k,
      (∀ j, j < (workerOnMessage (some 5) natClock h).iterations →
        natClock j < natClock 0 + 5) ∧
      natClock 0 + 5 ≤ natClock ((workerOnMessage (some 5) natClock h).iterations) ∧
      (workerOnMessage (some 5) natClock h).postedDone = true :=
  ⟨by norm_num, fun k => by simp [natClock],
    c9_worker_spins_until_deadline_then_done 5 (by norm_num) natClock
      (fun k => by simp [natClock])⟩

/-- C10: a missing or zero (falsy) duration value is not rejected: the
`/stress` handler's `|| 60000` default applies, the campaign starts with
60000 ms posted to every spawned worker, and the worker-side
`Number(durationMs || 60000)` applies the same default independently for
a falsy received `durationMs`. -/
theorem c10_falsy_duration_defaults_60000 (numCPUs : ℕ) (s : ServerState)
    (h : s.isStressing = false) :
    effectiveDuration none = 60000 ∧
    effectiveDuration (some 0) = 60000 ∧
    workerEffectiveDuration none = 60000 ∧
    workerEffectiveDuration (some 0) = 60000 ∧
    (postStress numCPUs none s).response =
      { success := true, message := "Stress test started",
        duration := some 60000 } ∧
    (postStress numCPUs none s).sent =
      (List.range numCPUs).map fun i => (s.nextId + i, 60000) := by
  refine ⟨rfl, by simp [effectiveDuration], rfl, by simp [workerEffectiveDuration], ?_, ?_⟩
  · simp [postStress, h, stressCPU, stopStress, effectiveDuration]
  · simp [postStress, h, stressCPU, stopStress, effectiveDuration]

/-- Witness for `c10_falsy_duration_defaults_60000` at the idle initial
state on a 2-core host. -/
theorem c10_falsy_duration_defaults_60000_witness :
    initState.isStressing = false ∧
    (effectiveDuration none = 60000 ∧
      effectiveDuration (some 0) = 60000 ∧
      workerEffectiveDuration none = 60000 ∧
      workerEffectiveDuration (some 0) = 60000 ∧
      (postStress 2 none initState).response =
        { success := true, message := "Stress test started",
          duration := some 60000 } ∧
      (postStress 2 none initState).sent =
        (List.range 2).map fun i => (initState.nextId + i, 60000)) :=
  ⟨rfl, c10_falsy_duration_defaults_60000 2 initState rfl⟩
